import Mathlib

/-!
Shallow embedding of the aws-cdk-amplify-with-waf repository
(`app.py` and `src/amplify_add_on_stack.py`) and verification of its
specification's claims.

The repository is declarative infrastructure code: `app.py` loads a named
configuration bundle from the CDK context and instantiates two stacks;
`src/amplify_add_on_stack.py` declares the resources of the
`CustomAmplifyDistributionStack` (an Amplify branch Basic-Auth update, a
CloudFront distribution, an IAM policy, a cache-invalidation Lambda
function, and an EventBridge rule wired to it).

The embedding below translates those declarations into Lean data.  CDK
deploy-time tokens (`Aws.REGION`, `Aws.ACCOUNT_ID`, the distribution id and
domain assigned at creation) are modelled as symbolic parts of a `CfnString`
so that "references the created distribution, not a configured literal" is
expressible.  Python exceptions are modelled by an error type that records
the Python class hierarchy fact needed here: `KeyError` is a subclass of
`LookupError`, while `TypeError` is not.
-/

namespace AmplifyWaf

/-! ## Python error model -/

/-- Python exceptions raised by the configuration-loading path of `app.py`:
`LookupError` (raised explicitly for a missing/falsy `config` context key),
`KeyError` (raised by `dict[key]` for a missing key; a subclass of
`LookupError` in Python), and `TypeError` (raised when subscripting `None`,
which is what `try_get_context` returns for an absent context entry). -/
inductive PyError where
  | lookupError (msg : String)
  | keyError (key : String)
  | typeError (msg : String)
deriving DecidableEq

/-- Whether the raised exception is an instance of Python's `LookupError`.
`KeyError` is a subclass of `LookupError`; `TypeError` is not. -/
def PyError.isLookup : PyError → Bool
  | .lookupError _ => true
  | .keyError _ => true
  | .typeError _ => false

/-! ## CDK context model (`app.node.try_get_context`) -/

/-- A value stored in the CDK context: either a plain string (as passed with
`-c key=value`) or a JSON object of string fields (a configuration bundle
from `cdk.json`). -/
inductive CtxVal where
  | str (s : String)
  | dict (entries : List (String × String))
deriving DecidableEq

/-- The CDK app context: an association list of named context values. -/
def Context := List (String × CtxVal)

/-- Embedding of `app.node.try_get_context(key=...)`: returns the context
value when present, `none` (Python `None`) otherwise. -/
def tryGetContext (ctx : Context) (key : String) : Option CtxVal :=
  (ctx.find? (fun p => p.1 == key)).map (fun p => p.2)

/-- Python truthiness of a context value, as tested by
`if not environment_id:` in `app.py`: a string is truthy iff nonempty, a
dict is truthy iff nonempty. -/
def pyTruthy : CtxVal → Bool
  | .str s => s ≠ ""
  | .dict d => d ≠ []

/-- Embedding of Python `d[key]` on a dict of strings: the value when the
key is present, a `KeyError` otherwise. -/
def dictGet (d : List (String × String)) (key : String) : Except PyError String :=
  match d.find? (fun p => p.1 == key) with
  | some p => Except.ok p.2
  | none => Except.error (PyError.keyError key)

/-- The typed parameter bundle produced by `get_config` in `app.py`
(returned there as a 7-tuple, in this order). -/
structure Config where
  distribution_stack_name : String
  branch_name : String
  username : String
  password : String
  credentials : String
  cloudfront_id : String
  app_id : String
deriving DecidableEq

/-- Embedding of `get_config` from `app.py` lines 10 to 32:
read the `config` context key; if it is absent or falsy, raise
`LookupError`; otherwise look up the bundle named by it and subscript the
seven fields in source order.  Subscripting the `None` returned for an
absent bundle raises `TypeError`; subscripting a string bundle with a
string key also raises `TypeError`; a missing field of a dict bundle raises
`KeyError`. -/
def get_config (ctx : Context) : Except PyError Config :=
  match tryGetContext ctx "config" with
  | none =>
      Except.error (PyError.lookupError "Context variable is missing on CDK command")
  | some environment_id =>
      if pyTruthy environment_id = false then
        Except.error (PyError.lookupError "Context variable is missing on CDK command")
      else
        match environment_id with
        | CtxVal.dict _ =>
            Except.error (PyError.typeError "context key must be a string")
        | CtxVal.str envId =>
            match tryGetContext ctx envId with
            | none =>
                Except.error (PyError.typeError "NoneType object is not subscriptable")
            | some (CtxVal.str _) =>
                Except.error (PyError.typeError "string indices must be integers")
            | some (CtxVal.dict params) => do
                let app_id ← dictGet params "app_id"
                let branch_name ← dictGet params "branch_name"
                let username ← dictGet params "username"
                let password ← dictGet params "password"
                let credentials ← dictGet params "credentials"
                let cloudfront_id ← dictGet params "cloudfront_id"
                let distribution_stack_name ← dictGet params "distribution_stack_name"
                Except.ok {
                  distribution_stack_name := distribution_stack_name,
                  branch_name := branch_name,
                  username := username,
                  password := password,
                  credentials := credentials,
                  cloudfront_id := cloudfront_id,
                  app_id := app_id }

/-! ## String helpers from the Python standard library -/

/-- Embedding of Python `str.replace` on character lists: scan left to
right, and at each position either consume a (nonempty) occurrence of the
pattern and emit the replacement, or keep the current character.  Used in
the stack with the single-character pattern `/`. -/
def pyReplaceList (pat repl : List Char) : List Char → List Char
  | [] => []
  | c :: rest =>
      if pat ≠ [] ∧ pat.isPrefixOf (c :: rest) = true then
        repl ++ pyReplaceList pat repl (rest.drop (pat.length - 1))
      else
        c :: pyReplaceList pat repl rest
termination_by l => l.length
decreasing_by
  all_goals simp only [List.length_drop, List.length_cons]
  all_goals omega

/-- Embedding of Python `branch_name.replace(pat, repl)` on strings. -/
def pyReplace (s pat repl : String) : String :=
  String.mk (pyReplaceList pat.data repl.data s.data)

/-- UTF-8 encoding of a Unicode scalar value (given as its code point) as a
list of byte values; this is the byte encoding Python applies to a `str`
before percent-encoding it in `urllib.parse.quote`. -/
def utf8Bytes (c : Nat) : List Nat :=
  if c < 0x80 then [c]
  else if c < 0x800 then [0xC0 + c / 64, 0x80 + c % 64]
  else if c < 0x10000 then [0xE0 + c / 4096, 0x80 + c / 64 % 64, 0x80 + c % 64]
  else [0xF0 + c / 262144, 0x80 + c / 4096 % 64, 0x80 + c / 64 % 64, 0x80 + c % 64]

/-- The bytes `urllib.parse.quote` never quotes regardless of the `safe`
argument: ASCII letters, digits, and `_`, `.`, `-`, `~`. -/
def isUnreservedByte (b : Nat) : Bool :=
  (0x41 ≤ b && b ≤ 0x5A) || (0x61 ≤ b && b ≤ 0x7A) || (0x30 ≤ b && b ≤ 0x39) ||
    b == 0x5F || b == 0x2E || b == 0x2D || b == 0x7E

/-- Uppercase hexadecimal digit (as a byte value) of a number below 16, as
produced by `urllib.parse.quote`. -/
def hexUpper (n : Nat) : Nat :=
  if n < 10 then 48 + n else 55 + n

/-- Percent-encoding of one byte with `safe=''`: an unreserved byte is kept,
any other byte becomes `%` followed by two uppercase hex digits. -/
def quoteByte (b : Nat) : List Nat :=
  if isUnreservedByte b then [b] else [0x25, hexUpper (b / 16), hexUpper (b % 16)]

/-- Embedding of Python `urllib.parse.quote(s, safe='')` at the byte level:
UTF-8 encode the string, then percent-encode every byte that is not
unreserved (with `safe=''`, even `/` is encoded). -/
def pyQuoteBytes (s : String) : List Nat :=
  (s.data.flatMap (fun c => utf8Bytes c.toNat)).flatMap quoteByte

/-- Embedding of Python `urllib.parse.quote(s, safe='')` as a string (the
output bytes are all ASCII, so reading each byte as a character matches
Python's `str` result). -/
def pyQuote (s : String) : String :=
  String.mk ((pyQuoteBytes s).map Char.ofNat)

/-! ## CDK token model -/

/-- One part of a deploy-time string.  `lit` is literal text fixed at
synthesis; the other constructors are CDK tokens resolved by CloudFormation
at deploy time: the stack region (`Aws.REGION`), the account id
(`Aws.ACCOUNT_ID`), and the id and domain name assigned to the CloudFront
distribution created by this stack. -/
inductive CfnPart where
  | lit (s : String)
  | region
  | accountId
  | distId
  | distDomain
deriving DecidableEq

/-- A string that may interleave literal text with deploy-time tokens
(the embedding of a Python f-string over CDK token attributes). -/
abbrev CfnString := List CfnPart

/-! ## Resource model for CustomAmplifyDistributionStack -/

/-- A parameter of an AWS SDK call made by an `AwsCustomResource`. -/
inductive SdkParam where
  | str (s : String)
  | bool (b : Bool)
deriving DecidableEq

/-- An `custom.AwsSdkCall`: service, action, parameter dict, and physical
resource id. -/
structure SdkCall where
  service : String
  action : String
  parameters : List (String × SdkParam)
  physical_resource_id : String
deriving DecidableEq

/-- An `custom.AwsCustomResource`: the resource ARNs its SDK-call policy is
scoped to, and the SDK calls declared for the create and update lifecycle
events. -/
structure AwsCustomResource where
  policy_resources : List CfnString
  on_create : SdkCall
  on_update : SdkCall
deriving DecidableEq

/-- An `origins.HttpOrigin`: the origin domain name and the custom headers
injected into every origin request. -/
structure HttpOrigin where
  domain_name : String
  custom_headers : List (String × String)
deriving DecidableEq

/-- The `cloudfront.ViewerProtocolPolicy` enum values. -/
inductive ViewerProtocolPolicy where
  | allowAll
  | httpsOnly
  | redirectToHttps
deriving DecidableEq

/-- The `cloudfront.PriceClass` enum values. -/
inductive PriceClass where
  | priceClass100
  | priceClass200
  | priceClassAll
deriving DecidableEq

/-- A `cloudfront.BehaviorOptions`. -/
structure BehaviorOptions where
  origin : HttpOrigin
  viewer_protocol_policy : ViewerProtocolPolicy
deriving DecidableEq

/-- A `cloudfront.Distribution` declaration.  `web_acl_id` is optional
because `app.py` passes `app.node.try_get_context("web_acl_arn")`, which may
be absent. -/
structure Distribution where
  default_behavior : BehaviorOptions
  price_class : PriceClass
  web_acl_id : Option String
  comment : String
deriving DecidableEq

/-- The `iam.Effect` enum values. -/
inductive Effect where
  | allow
  | deny
deriving DecidableEq

/-- An `iam.PolicyStatement`. -/
structure PolicyStatement where
  effect : Effect
  actions : List String
  resources : List CfnString
deriving DecidableEq

/-- An `iam.ManagedPolicy` declared in the stack. -/
structure ManagedPolicy where
  statements : List PolicyStatement
deriving DecidableEq

/-- An `iam.Role` declaration: description, trusted service principal, and
the ARNs or stack-local names of the managed policies attached to it. -/
structure IamRole where
  description : String
  assumed_by : String
  managed_policies : List String
deriving DecidableEq

/-- A `aws_lambda.Function` declaration.  The environment values are
`CfnString`s because `DISTRIBUTION_ID` carries a deploy-time token. -/
structure LambdaFunction where
  description : String
  runtime : String
  handler : String
  code_path : String
  timeout_seconds : Nat
  memory_size : Nat
  role : IamRole
  tracing : String
  log_retention : String
  environment : List (String × CfnString)
deriving DecidableEq

/-- An `events.EventPattern`: each field lists the values the corresponding
event field is allowed to take. -/
structure EventPattern where
  source : List String
  detail_type : List String
  detail_appId : List String
  detail_branchName : List String
  detail_jobStatus : List String
deriving DecidableEq

/-- A `targets.LambdaFunction` rule target: the function to invoke and the
retry count EventBridge applies to failed deliveries. -/
structure LambdaTarget where
  handler : LambdaFunction
  retry_attempts : Nat
deriving DecidableEq

/-- An `events.Rule`: description, event pattern and target list. -/
structure Rule where
  description : String
  event_pattern : EventPattern
  targets : List LambdaTarget
deriving DecidableEq

/-! ## The CustomAmplifyDistributionStack declaration -/

/-- The constructor arguments of `CustomAmplifyDistributionStack`
(`src/amplify_add_on_stack.py` lines 20 to 31). -/
structure StackProps where
  web_acl_arn : Option String
  app_id : String
  branch_name : String
  username : String
  password : String
  credentials : String
  cloudfront_id : String
deriving DecidableEq

/-- Embedding of line 42, `amplify_auth = username + ':' + password`: a
local value computed by the constructor and never used afterwards. -/
def amplify_auth (p : StackProps) : String :=
  p.username ++ ":" ++ p.password

/-- The resources declared by `CustomAmplifyDistributionStack`
(`src/amplify_add_on_stack.py`).  The cdk-nag suppressions and the managed
`AWSLambdaBasicExecutionRole` lookup are metadata-only and carry no claimed
behavior; the role records the attached policies by name. -/
structure AmplifyStack where
  app_branch_update : AwsCustomResource
  amplify_app_distribution : Distribution
  cache_invalidation_function_role : IamRole
  cache_invalidation_function_custom_policy : ManagedPolicy
  cache_invalidation_function : LambdaFunction
  invoke_cache_invalidation : Rule
  output_distribution_domain : CfnString
deriving DecidableEq

/-- Embedding of the body of `CustomAmplifyDistributionStack.__init__`
(`src/amplify_add_on_stack.py` lines 33 to 176), translated declaration by
declaration from the source. -/
def CustomAmplifyDistributionStack (p : StackProps) : AmplifyStack :=
  let amplify_auth_credentials := p.credentials
  let app_branch_update : AwsCustomResource := {
    policy_resources := [[CfnPart.lit "arn:aws:amplify:", CfnPart.region,
      CfnPart.lit ":", CfnPart.accountId,
      CfnPart.lit (":apps/" ++ p.app_id ++ "/branches/" ++ pyQuote p.branch_name)]],
    on_create := {
      service := "Amplify",
      action := "updateBranch",
      parameters := [
        ("appId", SdkParam.str p.app_id),
        ("branchName", SdkParam.str p.branch_name),
        ("enableBasicAuth", SdkParam.bool true),
        ("basicAuthCredentials", SdkParam.str amplify_auth_credentials)],
      physical_resource_id := "amplify-branch-update" },
    on_update := {
      service := "Amplify",
      action := "updateBranch",
      parameters := [
        ("appId", SdkParam.str p.app_id),
        ("branchName", SdkParam.str p.branch_name),
        ("enableBasicAuth", SdkParam.bool true),
        ("basicAuthCredentials", SdkParam.str amplify_auth_credentials)],
      physical_resource_id := "amplify-branch-update" } }
  let formatted_amplify_branch := pyReplace p.branch_name "/" "-"
  let amplify_app_distribution : Distribution := {
    default_behavior := {
      origin := {
        domain_name := formatted_amplify_branch ++ "." ++ p.app_id ++ ".amplifyapp.com",
        custom_headers := [("Authorization", "Basic " ++ amplify_auth_credentials)] },
      viewer_protocol_policy := ViewerProtocolPolicy.redirectToHttps },
    price_class := PriceClass.priceClassAll,
    web_acl_id := p.web_acl_arn,
    comment := p.cloudfront_id }
  let cache_invalidation_function_custom_policy : ManagedPolicy := {
    statements := [{
      effect := Effect.allow,
      actions := ["cloudfront:CreateInvalidation"],
      resources := [[CfnPart.lit "arn:aws:cloudfront::", CfnPart.accountId,
        CfnPart.lit ":distribution/", CfnPart.distId]] }] }
  let cache_invalidation_function_role : IamRole := {
    description := "Role used by cache_invalidation lambda function",
    assumed_by := "lambda.amazonaws.com",
    managed_policies := ["AWSLambdaBasicExecutionRole",
      "rCacheInvalidationFunctionCustomPolicy"] }
  let cache_invalidation_function : LambdaFunction := {
    description := "custom function to trigger cloudfront cache invalidation",
    runtime := "PYTHON_3_9",
    handler := "lambda_function.lambda_handler",
    code_path := "functions/cache_invalidation",
    timeout_seconds := 30,
    memory_size := 128,
    role := cache_invalidation_function_role,
    tracing := "ACTIVE",
    log_retention := "SIX_MONTHS",
    environment := [("DISTRIBUTION_ID", [CfnPart.distId])] }
  { app_branch_update := app_branch_update,
    amplify_app_distribution := amplify_app_distribution,
    cache_invalidation_function_role := cache_invalidation_function_role,
    cache_invalidation_function_custom_policy := cache_invalidation_function_custom_policy,
    cache_invalidation_function := cache_invalidation_function,
    invoke_cache_invalidation := {
      description := "Rule is triggered when the Amplify app is redeployed, which creates a CloudFront cache invalidation request",
      event_pattern := {
        source := ["aws.amplify"],
        detail_type := ["Amplify Deployment Status Change"],
        detail_appId := [p.app_id],
        detail_branchName := [p.branch_name],
        detail_jobStatus := ["SUCCEED"] },
      targets := [{ handler := cache_invalidation_function, retry_attempts := 2 }] },
    output_distribution_domain := [CfnPart.distDomain] }

/-! ## EventBridge matching semantics -/

/-- An incoming Amplify deployment event, carrying the fields the rule's
pattern constrains: `source`, `detail-type`, and the `appId`, `branchName`
and `jobStatus` entries of `detail`. -/
structure AmplifyEvent where
  source : String
  detail_type : String
  appId : String
  branchName : String
  jobStatus : String
deriving DecidableEq

/-- EventBridge pattern matching for the pattern shape used by this stack:
every constrained field of the event must equal one of the values listed
for it in the pattern. -/
def eventMatches (pat : EventPattern) (e : AmplifyEvent) : Bool :=
  pat.source.contains e.source &&
  pat.detail_type.contains e.detail_type &&
  pat.detail_appId.contains e.appId &&
  pat.detail_branchName.contains e.branchName &&
  pat.detail_jobStatus.contains e.jobStatus

/-- The invocations an `events.Rule` dispatches for one incoming event: one
invocation per target when the pattern matches, none otherwise. -/
def Rule.invocations (r : Rule) (e : AmplifyEvent) : List LambdaTarget :=
  if eventMatches r.event_pattern e then r.targets else []

/-! ## The app entry point (`app.py`) -/

/-- A stack declared by `app.py`: the `CustomWebAclStack` (whose module is
not part of the two embedded source files; only its instantiation with id,
description and region appears in `app.py`, so it is kept opaque here) or
the `CustomAmplifyDistributionStack` with its resources. -/
inductive StackDecl where
  | webAcl (stack_id : String) (region : String)
  | amplifyDistribution (stack_id : String) (stack : AmplifyStack)
deriving DecidableEq

/-- Embedding of the module-level flow of `app.py`: run `get_config`, then
declare the two stacks.  Any exception from `get_config` propagates before
any stack resource is declared. -/
def appMain (ctx : Context) : Except PyError (List StackDecl) := do
  let cfg ← get_config ctx
  let web_acl_arn :=
    match tryGetContext ctx "web_acl_arn" with
    | some (CtxVal.str s) => some s
    | _ => none
  Except.ok [
    StackDecl.webAcl "CustomWebAclStack" "us-east-1",
    StackDecl.amplifyDistribution cfg.distribution_stack_name
      (CustomAmplifyDistributionStack {
        web_acl_arn := web_acl_arn,
        app_id := cfg.app_id,
        branch_name := cfg.branch_name,
        username := cfg.username,
        password := cfg.password,
        credentials := cfg.credentials,
        cloudfront_id := cfg.cloudfront_id })]

/-! ## Helper lemmas -/

/-- Any exception from `get_config` propagates through `appMain` unchanged:
no stack is declared on the error path. -/
theorem appMain_error (ctx : Context) (e : PyError)
    (h : get_config ctx = Except.error e) : appMain ctx = Except.error e := by
  unfold appMain
  rw [h]
  rfl

/-! ## Claim C1 -/

/-- C1 counterexample: in a context where the selector `config` is present
(with value `env1`) but no bundle named `env1` exists, `get_config` raises a
`TypeError` (from subscripting the `None` returned by `try_get_context`),
which is not a Python `LookupError`, contradicting the claim that every
absent-selector failure is a lookup error. -/
theorem C1_counterexample :
    tryGetContext [("config", CtxVal.str "env1")] "env1" = none ∧
    get_config [("config", CtxVal.str "env1")] =
      Except.error (PyError.typeError "NoneType object is not subscriptable") ∧
    PyError.isLookup (PyError.typeError "NoneType object is not subscriptable") = false := by
  refine ⟨rfl, rfl, rfl⟩

/-- C1 (amended): a missing `config` context key makes `get_config` raise a
`LookupError`; a `config` key holding a nonempty selector string whose
named bundle is absent makes it raise a `TypeError` (subscripting `None`),
not a lookup error; and in every failure case the error propagates through
`appMain` before any stack resource is declared. -/
theorem C1_config_failure (ctx : Context) :
    (tryGetContext ctx "config" = none →
      get_config ctx =
        Except.error (PyError.lookupError "Context variable is missing on CDK command") ∧
      appMain ctx =
        Except.error (PyError.lookupError "Context variable is missing on CDK command"))
    ∧ (∀ s, tryGetContext ctx "config" = some (CtxVal.str s) → s ≠ "" →
        tryGetContext ctx s = none →
        get_config ctx =
          Except.error (PyError.typeError "NoneType object is not subscriptable") ∧
        appMain ctx =
          Except.error (PyError.typeError "NoneType object is not subscriptable"))
    ∧ (∀ e, get_config ctx = Except.error e → appMain ctx = Except.error e) := by
  refine ⟨?_, ?_, fun e he => appMain_error ctx e he⟩
  · intro h
    have hg : get_config ctx =
        Except.error (PyError.lookupError "Context variable is missing on CDK command") := by
      simp [get_config, h]
    exact ⟨hg, appMain_error ctx _ hg⟩
  · intro s hs hne hnone
    have hg : get_config ctx =
        Except.error (PyError.typeError "NoneType object is not subscriptable") := by
      simp [get_config, hs, pyTruthy, hne, hnone]
    exact ⟨hg, appMain_error ctx _ hg⟩

/-- C1 witness: the amended theorem applied to a concrete empty context
(missing selector, lookup error) and to a concrete context whose selector
names an absent bundle (type error). -/
theorem C1_config_failure_witness :
    appMain [] =
      Except.error (PyError.lookupError "Context variable is missing on CDK command") ∧
    appMain [("config", CtxVal.str "env1")] =
      Except.error (PyError.typeError "NoneType object is not subscriptable") := by
  refine ⟨((C1_config_failure []).1 rfl).2, ?_⟩
  exact (((C1_config_failure [("config", CtxVal.str "env1")]).2.1) "env1" rfl
    (by decide) rfl).2

/-! ## Claims C2 and C3 -/

/-- C2: an incoming event whose source, detail-type, appId, branchName and
jobStatus all equal the configured sentinels matches the rule's pattern and
produces exactly one invocation, of the stack's cache-invalidation handler,
whose `DISTRIBUTION_ID` environment entry is the identifier of the
distribution created by this stack. -/
theorem C2_matching_event_one_invocation (p : StackProps) (e : AmplifyEvent)
    (hs : e.source = "aws.amplify")
    (hd : e.detail_type = "Amplify Deployment Status Change")
    (ha : e.appId = p.app_id)
    (hb : e.branchName = p.branch_name)
    (hj : e.jobStatus = "SUCCEED") :
    (CustomAmplifyDistributionStack p).invoke_cache_invalidation.invocations e =
      [{ handler := (CustomAmplifyDistributionStack p).cache_invalidation_function,
         retry_attempts := 2 }] ∧
    ((CustomAmplifyDistributionStack p).cache_invalidation_function.environment).lookup
        "DISTRIBUTION_ID" = some [CfnPart.distId] := by
  have hm : eventMatches
      (CustomAmplifyDistributionStack p).invoke_cache_invalidation.event_pattern e = true := by
    simp [CustomAmplifyDistributionStack, eventMatches, hs, hd, ha, hb, hj, List.contains_cons]
  refine ⟨?_, rfl⟩
  rw [Rule.invocations, hm]
  rfl

/-- C2 witness: the theorem applied to a concrete configuration and the
concrete event carrying exactly the configured sentinel values. -/
theorem C2_matching_event_one_invocation_witness :
    (CustomAmplifyDistributionStack
      { web_acl_arn := none, app_id := "d111", branch_name := "main", username := "u",
        password := "pw", credentials := "dTpwdw==",
        cloudfront_id := "E1" }).invoke_cache_invalidation.invocations
      { source := "aws.amplify", detail_type := "Amplify Deployment Status Change",
        appId := "d111", branchName := "main", jobStatus := "SUCCEED" } =
      [{ handler := (CustomAmplifyDistributionStack
          { web_acl_arn := none, app_id := "d111", branch_name := "main", username := "u",
            password := "pw", credentials := "dTpwdw==",
            cloudfront_id := "E1" }).cache_invalidation_function,
         retry_attempts := 2 }] ∧
    ((CustomAmplifyDistributionStack
      { web_acl_arn := none, app_id := "d111", branch_name := "main", username := "u",
        password := "pw", credentials := "dTpwdw==",
        cloudfront_id := "E1" }).cache_invalidation_function.environment).lookup
      "DISTRIBUTION_ID" = some [CfnPart.distId] :=
  C2_matching_event_one_invocation _ _ rfl rfl rfl rfl rfl

/-- C3: an incoming event whose jobStatus is not `SUCCEED`, or whose appId
or branchName differs from the configured value, does not match the rule's
pattern, and the rule dispatches no invocation for it. -/
theorem C3_nonmatching_event_no_invocation (p : StackProps) (e : AmplifyEvent)
    (h : e.jobStatus ≠ "SUCCEED" ∨ e.appId ≠ p.app_id ∨ e.branchName ≠ p.branch_name) :
    eventMatches (CustomAmplifyDistributionStack p).invoke_cache_invalidation.event_pattern e
        = false ∧
    (CustomAmplifyDistributionStack p).invoke_cache_invalidation.invocations e = [] := by
  have hm : eventMatches
      (CustomAmplifyDistributionStack p).invoke_cache_invalidation.event_pattern e = false := by
    rcases h with h | h | h <;>
      simp [CustomAmplifyDistributionStack, eventMatches, List.contains_cons, h]
  refine ⟨hm, ?_⟩
  rw [Rule.invocations, hm]
  rfl

/-- C3 witness: the theorem applied to a concrete configuration and a
concrete deployment event whose jobStatus is `FAILED`. -/
theorem C3_nonmatching_event_no_invocation_witness :
    eventMatches (CustomAmplifyDistributionStack
      { web_acl_arn := none, app_id := "d111", branch_name := "main", username := "u",
        password := "pw", credentials := "dTpwdw==",
        cloudfront_id := "E1" }).invoke_cache_invalidation.event_pattern
      { source := "aws.amplify", detail_type := "Amplify Deployment Status Change",
        appId := "d111", branchName := "main", jobStatus := "FAILED" } = false ∧
    (CustomAmplifyDistributionStack
      { web_acl_arn := none, app_id := "d111", branch_name := "main", username := "u",
        password := "pw", credentials := "dTpwdw==",
        cloudfront_id := "E1" }).invoke_cache_invalidation.invocations
      { source := "aws.amplify", detail_type := "Amplify Deployment Status Change",
        appId := "d111", branchName := "main", jobStatus := "FAILED" } = [] :=
  C3_nonmatching_event_no_invocation _ _ (Or.inl (by decide))

/-! ## Claims C4 and C5 -/

/-- With a single-character pattern, Python `str.replace` is exactly the
character-wise substitution. -/
theorem pyReplaceList_single (a b : Char) (l : List Char) :
    pyReplaceList [a] [b] l = l.map (fun c => if c = a then b else c) := by
  induction l with
  | nil => rw [pyReplaceList]; rfl
  | cons c rest ih =>
      rw [pyReplaceList]
      by_cases hc : c = a
      · subst hc
        simp [List.isPrefixOf, ih]
      · have hba : (a == c) = false := by
          simp [beq_eq_false_iff_ne]
          exact fun h => hc h.symm
        simp [List.isPrefixOf, hba, ih, hc]

/-- C4: for every configuration bundle, the declared distribution's origin
domain name is the branch name with every `/` substituted by `-`, followed
by `.`, the app id, and `.amplifyapp.com`. -/
theorem C4_origin_domain (p : StackProps) :
    (CustomAmplifyDistributionStack p).amplify_app_distribution.default_behavior.origin.domain_name =
      String.mk (p.branch_name.data.map (fun c => if c = '/' then '-' else c)) ++ "." ++
        p.app_id ++ ".amplifyapp.com" := by
  show pyReplace p.branch_name "/" "-" ++ "." ++ p.app_id ++ ".amplifyapp.com" = _
  rw [pyReplace]
  rw [show ("/" : String).data = ['/'] from rfl, show ("-" : String).data = ['-'] from rfl]
  rw [pyReplaceList_single]

/-- UTF-8 byte sequence of a string, character by character: the byte
representation an HTTP header value is transmitted as. -/
def stringUtf8 (s : String) : List Nat :=
  s.data.flatMap (fun c => utf8Bytes c.toNat)

/-- C5: for every credentials string, the `Authorization` custom header
injected into origin requests is exactly the literal `Basic ` followed by
the credentials string, with no transformation applied: its character data
and its UTF-8 bytes are the plain concatenations of the two parts. -/
theorem C5_authorization_header (p : StackProps) :
    (CustomAmplifyDistributionStack p).amplify_app_distribution.default_behavior.origin.custom_headers =
      [("Authorization", "Basic " ++ p.credentials)] ∧
    ("Basic " ++ p.credentials).data = "Basic ".data ++ p.credentials.data ∧
    stringUtf8 ("Basic " ++ p.credentials) = stringUtf8 "Basic " ++ stringUtf8 p.credentials := by
  refine ⟨rfl, rfl, ?_⟩
  show stringUtf8 (String.mk ("Basic ".data ++ p.credentials.data)) = _
  rw [stringUtf8, stringUtf8, stringUtf8, List.flatMap_append]

/-! ## Claim C6 -/

/-- Percent-encoding a byte with `safe=''` never yields the byte of `/`
(47): unreserved bytes are never 47, and the escape output consists of `%`
(37) and hex digits (48 to 70). -/
theorem slash_notin_quoteByte (b : Nat) : 47 ∉ quoteByte b := by
  intro hmem
  rw [quoteByte] at hmem
  split at hmem
  · rename_i h
    simp only [List.mem_singleton] at hmem
    subst hmem
    simp [isUnreservedByte] at h
  · simp only [hexUpper, List.mem_cons, List.not_mem_nil, or_false] at hmem
    rcases hmem with h | h | h
    · omega
    · split at h <;> omega
    · split at h <;> omega

/-- The output of `urllib.parse.quote(s, safe='')` contains no `/` byte. -/
theorem slash_notin_pyQuoteBytes (s : String) : 47 ∉ pyQuoteBytes s := by
  intro hmem
  rw [pyQuoteBytes, List.mem_flatMap] at hmem
  obtain ⟨b, _, hb⟩ := hmem
  exact slash_notin_quoteByte b hb

/-- When the input contains `/`, the output of
`urllib.parse.quote(s, safe='')` contains a `%` byte (the `/` is escaped). -/
theorem percent_mem_pyQuoteBytes (s : String) (h : '/' ∈ s.data) :
    37 ∈ pyQuoteBytes s := by
  rw [pyQuoteBytes, List.mem_flatMap]
  refine ⟨47, ?_, ?_⟩
  · rw [List.mem_flatMap]
    exact ⟨'/', h, by decide⟩
  · decide

/-- Dash-substitution removes every `/` from the branch name. -/
theorem slash_notin_replace (s : String) :
    '/' ∉ (pyReplace s "/" "-").data := by
  intro hmem
  rw [pyReplace] at hmem
  rw [show ("/" : String).data = ['/'] from rfl, show ("-" : String).data = ['-'] from rfl,
    pyReplaceList_single] at hmem
  simp only [String.data] at hmem
  rw [List.mem_map] at hmem
  obtain ⟨c, _, hc⟩ := hmem
  by_cases h : c = '/' <;> simp [h] at hc

/-- C6: for a branch name containing `/`, the custom-resource policy ARN
embeds the branch percent-encoded with no safe characters (the `/` byte is
gone, a `%` escape appears, and concretely `feature/x` becomes
`feature%2Fx`), while the origin domain built from the same branch name
substitutes `/` with `-` (concretely `feature-x`); both transformations are
applied to the configured branch name in their respective places. -/
theorem C6_branch_encodings (p : StackProps) (h : '/' ∈ p.branch_name.data) :
    (CustomAmplifyDistributionStack p).app_branch_update.policy_resources =
      [[CfnPart.lit "arn:aws:amplify:", CfnPart.region, CfnPart.lit ":", CfnPart.accountId,
        CfnPart.lit (":apps/" ++ p.app_id ++ "/branches/" ++ pyQuote p.branch_name)]] ∧
    (47 : Nat) ∉ pyQuoteBytes p.branch_name ∧
    (37 : Nat) ∈ pyQuoteBytes p.branch_name ∧
    (CustomAmplifyDistributionStack p).amplify_app_distribution.default_behavior.origin.domain_name =
      pyReplace p.branch_name "/" "-" ++ "." ++ p.app_id ++ ".amplifyapp.com" ∧
    '/' ∉ (pyReplace p.branch_name "/" "-").data ∧
    pyQuote "feature/x" = "feature%2Fx" ∧
    pyReplace "feature/x" "/" "-" = "feature-x" :=
  ⟨rfl, slash_notin_pyQuoteBytes p.branch_name, percent_mem_pyQuoteBytes p.branch_name h,
    rfl, slash_notin_replace p.branch_name, by decide, by
      rw [pyReplace, show ("/" : String).data = ['/'] from rfl,
        show ("-" : String).data = ['-'] from rfl, pyReplaceList_single]
      decide⟩

/-- C6 witness: the theorem applied to a concrete configuration whose
branch name is `feature/x`. -/
theorem C6_branch_encodings_witness :
    (CustomAmplifyDistributionStack
      { web_acl_arn := none, app_id := "d111", branch_name := "feature/x", username := "u",
        password := "pw", credentials := "dTpwdw==",
        cloudfront_id := "E1" }).app_branch_update.policy_resources =
      [[CfnPart.lit "arn:aws:amplify:", CfnPart.region, CfnPart.lit ":", CfnPart.accountId,
        CfnPart.lit ":apps/d111/branches/feature%2Fx"]] ∧
    (CustomAmplifyDistributionStack
      { web_acl_arn := none, app_id := "d111", branch_name := "feature/x", username := "u",
        password := "pw", credentials := "dTpwdw==",
        cloudfront_id := "E1" }).amplify_app_distribution.default_behavior.origin.domain_name =
      "feature-x.d111.amplifyapp.com" := by
  have h := C6_branch_encodings
    { web_acl_arn := none, app_id := "d111", branch_name := "feature/x", username := "u",
      password := "pw", credentials := "dTpwdw==", cloudfront_id := "E1" } (by decide)
  refine ⟨?_, ?_⟩
  · rw [h.1]
    decide
  · rw [h.2.2.2.1, pyReplace, show ("/" : String).data = ['/'] from rfl,
      show ("-" : String).data = ['-'] from rfl, pyReplaceList_single]
    decide

/-! ## Claims C7, C8, C9, C10 -/

/-- C7: the event rule has exactly one target, and its delivery retry count
is exactly 2.  No other declaration in `CustomAmplifyDistributionStack`
carries a retry setting (the source configures none elsewhere: the Lambda
function declares only timeout and memory, and the custom resource declares
no retry), so this target's `retry_attempts` is the only retry mechanism in
the stack. -/
theorem C7_retry_attempts (p : StackProps) :
    ((CustomAmplifyDistributionStack p).invoke_cache_invalidation.targets.map
      (fun t => t.retry_attempts)) = [2] ∧
    (CustomAmplifyDistributionStack p).invoke_cache_invalidation.targets.length = 1 := by
  exact ⟨rfl, rfl⟩

/-- C8: the SDK call declared for the update lifecycle event is identical
(service, action, every parameter, and physical resource id) to the SDK
call declared for the create lifecycle event, so a redeploy re-issues the
same `Amplify updateBranch` call with `enableBasicAuth=True` and the
configured credentials. -/
theorem C8_branch_update_idempotent (p : StackProps) :
    (CustomAmplifyDistributionStack p).app_branch_update.on_update =
      (CustomAmplifyDistributionStack p).app_branch_update.on_create ∧
    (CustomAmplifyDistributionStack p).app_branch_update.on_create =
      { service := "Amplify",
        action := "updateBranch",
        parameters := [
          ("appId", SdkParam.str p.app_id),
          ("branchName", SdkParam.str p.branch_name),
          ("enableBasicAuth", SdkParam.bool true),
          ("basicAuthCredentials", SdkParam.str p.credentials)],
        physical_resource_id := "amplify-branch-update" } :=
  ⟨rfl, rfl⟩

/-- C9: the `DISTRIBUTION_ID` environment variable of the handler and the
resource ARN of its `CreateInvalidation` policy both carry the deploy-time
token of the distribution created by this stack, not the configured
`cloudfront_id`; the configured `cloudfront_id` appears only as the
distribution's comment, so changing it changes nothing but the comment. -/
theorem C9_distribution_identifier (p : StackProps) :
    (CustomAmplifyDistributionStack p).cache_invalidation_function.environment =
      [("DISTRIBUTION_ID", [CfnPart.distId])] ∧
    (CustomAmplifyDistributionStack p).cache_invalidation_function_custom_policy.statements =
      [{ effect := Effect.allow,
         actions := ["cloudfront:CreateInvalidation"],
         resources := [[CfnPart.lit "arn:aws:cloudfront::", CfnPart.accountId,
           CfnPart.lit ":distribution/", CfnPart.distId]] }] ∧
    (CustomAmplifyDistributionStack p).amplify_app_distribution.comment = p.cloudfront_id ∧
    ∀ c, CustomAmplifyDistributionStack { p with cloudfront_id := c } =
      { CustomAmplifyDistributionStack p with
        amplify_app_distribution :=
          { (CustomAmplifyDistributionStack p).amplify_app_distribution with comment := c } } := by
  refine ⟨rfl, rfl, rfl, fun c => ?_⟩
  obtain ⟨w, a, b, u, pw, cr, cf⟩ := p
  rfl

/-- C10: two configuration bundles that differ only in username and
password yield identical stacks: every declared resource is the same.  The
concatenation `username + ':' + password` (the `amplify_auth` local of line
42) is computed but reaches no resource; only the credentials blob reaches
the branch update parameters and the Authorization header. -/
theorem C10_credentials_only (p q : StackProps)
    (hw : p.web_acl_arn = q.web_acl_arn)
    (ha : p.app_id = q.app_id)
    (hb : p.branch_name = q.branch_name)
    (hc : p.credentials = q.credentials)
    (hcf : p.cloudfront_id = q.cloudfront_id) :
    CustomAmplifyDistributionStack p = CustomAmplifyDistributionStack q ∧
    amplify_auth p = p.username ++ ":" ++ p.password ∧
    ((CustomAmplifyDistributionStack p).app_branch_update.on_create.parameters).lookup
      "basicAuthCredentials" = some (SdkParam.str p.credentials) ∧
    ((CustomAmplifyDistributionStack p).amplify_app_distribution.default_behavior.origin.custom_headers).lookup
      "Authorization" = some ("Basic " ++ p.credentials) := by
  obtain ⟨w1, a1, b1, u1, pw1, c1, cf1⟩ := p
  obtain ⟨w2, a2, b2, u2, pw2, c2, cf2⟩ := q
  simp only at hw ha hb hc hcf
  subst hw ha hb hc hcf
  exact ⟨rfl, rfl, rfl, rfl⟩

/-- C10 witness: the theorem applied to two concrete bundles with the same
app, branch, credentials blob and distribution comment but different
usernames and passwords. -/
theorem C10_credentials_only_witness :
    CustomAmplifyDistributionStack
      { web_acl_arn := none, app_id := "d111", branch_name := "main", username := "alice",
        password := "pw1", credentials := "dTpwdw==", cloudfront_id := "E1" } =
    CustomAmplifyDistributionStack
      { web_acl_arn := none, app_id := "d111", branch_name := "main", username := "bob",
        password := "pw2", credentials := "dTpwdw==", cloudfront_id := "E1" } :=
  (C10_credentials_only _ _ rfl rfl rfl rfl rfl).1

end AmplifyWaf
